import Mathlib

/-!
Verification of the Marble-Run 3D game simulation core.

This file gives a shallow embedding, in Lean 4, of the simulation core of the
repository (the `Game3DScreen` class of `src/screens/game_3d_screen.py`, the
`Ball` class of `src/game/physics.py`, and the `LevelGenerator` class of
`src/game/platforms.py`), and proves or refutes the specification claims about
it.

Modelling conventions:
  * Python floats are modelled by `ℚ`; Python ints (scores) by `ℤ`;
    Python sets of indices by `Finset ℕ`.
  * `math.sqrt`, `math.sin`, `math.cos` are modelled by explicit function
    parameters (`msqrt`, `msin`, `mcos`); concrete evaluations instantiate
    `msqrt` with `Rat.sqrt`, which agrees with the real square root on
    perfect squares (every concrete theorem below only evaluates it there).
  * wall-clock `time.time()` is modelled by an explicit parameter `t`.
  * attributes that the source assigns in `__init__` and never mutates
    (physics constants) are modelled as top-level definitions; mutable
    attributes are fields of the state structures.
  * rendering, camera, audio and window management are presentation-layer
    code and are outside the embedded core, as are the cosmetic `color`
    attributes.
-/

namespace MarbleRun

/-- Substring containment on strings, used to state that a winner reason
"contains" a given phrase: `t` occurs contiguously inside `s`. -/
def strContains (s t : String) : Prop :=
  ∃ a b : List Char, s.data = a ++ t.data ++ b

theorem strContains_of_append (a t b : String) : strContains (a ++ t ++ b) t :=
  ⟨a.data, b.data, by simp [String.data_append]⟩

namespace Screen

/-- Movement-type tag of a screen platform (the `movement_type` dict entry of
`_create_platforms`). -/
inductive MoveType where
  | static
  | horizontal
  | tilt
  | forward_back
  | rotate_tilt
deriving DecidableEq, Repr, Inhabited

/-- One platform dict of `Game3DScreen` (`_create_platforms`); keys that a
given movement type leaves absent are modelled as fields holding `0`, matching
the `.get(key, 0)` reads of the source.  The cosmetic `color` entry is
omitted. -/
structure Plat where
  x : ℚ
  y : ℚ
  z : ℚ
  width : ℚ
  height : ℚ
  depth : ℚ
  movement_type : MoveType
  base_x : ℚ
  base_y : ℚ
  base_z : ℚ
  move_range : ℚ := 0
  move_speed : ℚ := 0
  tilt_angle : ℚ := 0
  tilt_speed : ℚ := 0
  tilt_x : ℚ := 0
  tilt_z : ℚ := 0
  vel_x : ℚ := 0
  vel_z : ℚ := 0
deriving DecidableEq, Repr

/-- The mutable simulation state of `Game3DScreen` (its `__init__` fields,
minus rendering/camera/timing-of-frames bookkeeping).  `best_time` uses
`Option ℚ` with `none` standing for `float('inf')`. -/
structure GState where
  is_multiplayer : Bool
  ball_x : ℚ
  ball_y : ℚ
  ball_z : ℚ
  ball_vel_x : ℚ
  ball_vel_y : ℚ
  ball_vel_z : ℚ
  ball2_x : ℚ
  ball2_y : ℚ
  ball2_z : ℚ
  ball2_vel_x : ℚ
  ball2_vel_y : ℚ
  ball2_vel_z : ℚ
  platforms : List Plat
  game_over : Bool
  game_over_p1 : Bool
  game_over_p2 : Bool
  game_ended : Bool
  winner : ℕ
  winner_reason : String
  score : ℤ
  platforms_reached : Finset ℕ
  start_time : ℚ
  game_time : ℚ
  best_time : Option ℚ
  high_score : ℤ
  score_p2 : ℤ
  platforms_reached_p2 : Finset ℕ
  best_time_p2 : Option ℚ
  high_score_p2 : ℤ
  keys_w : Bool
  keys_a : Bool
  keys_s : Bool
  keys_d : Bool
  keys_space : Bool
  keys2_up : Bool
  keys2_down : Bool
  keys2_left : Bool
  keys2_right : Bool
  keys2_enter : Bool
deriving DecidableEq

/-- Physics constant `self.gravity` of `Game3DScreen`. -/
def gravity : ℚ := -15

/-- Physics constant `self.ground_friction`. -/
def ground_friction : ℚ := 85/100

/-- Physics constant `self.air_friction`. -/
def air_friction : ℚ := 98/100

/-- Physics constant `self.jump_force`. -/
def jump_force : ℚ := 8

/-- Physics constant `self.max_speed`. -/
def max_speed : ℚ := 10

/-- Physics constant `self.acceleration`. -/
def acceleration : ℚ := 18

/-- Physics constant `self.bounce_damping`. -/
def bounce_damping : ℚ := 6/10

/-- Physics constant `self.rolling_resistance`. -/
def rolling_resistance : ℚ := 2/100

/-- Death threshold `self.death_y`. -/
def death_y : ℚ := -20

/-- Ball radius `self.ball_radius` (= `self.ball2_radius`). -/
def ball_radius : ℚ := 1/2

/-- The `movement_types` list of `_create_platforms`. -/
def movement_types : List MoveType :=
  [.horizontal, .tilt, .forward_back, .rotate_tilt]

/-- One generated platform of `_create_platforms` for index `1 ≤ i`. -/
def create_platform (i : ℕ) : Plat :=
  let z_pos : ℚ := -6 * i
  let x_pos : ℚ := (-1) ^ i * ((i % 3 : ℕ) : ℚ) * 2
  let y_pos : ℚ := ((i / 3 : ℕ) : ℚ) * (1/2)
  let movement_type := movement_types[(i - 1) % movement_types.length]!
  let wd : ℚ := if i ≤ 5 then 6 else if i ≤ 15 then 5 else 4
  let base : Plat :=
    { x := x_pos, y := y_pos, z := z_pos,
      width := wd, height := 1/2, depth := wd,
      movement_type := movement_type,
      base_x := x_pos, base_y := y_pos, base_z := z_pos }
  match movement_type with
  | .horizontal =>
      { base with move_range := 3 + i * (1/10), move_speed := 1 + i * (5/100) }
  | .tilt =>
      { base with tilt_angle := 0, tilt_speed := 3/2 + i * (5/100) }
  | .forward_back =>
      { base with move_range := 5/2 + i * (8/100), move_speed := 8/10 + i * (4/100) }
  | .rotate_tilt =>
      { base with tilt_x := 0, tilt_z := 0, tilt_speed := 12/10 + i * (3/100) }
  | .static => base

/-- The `_create_platforms` method: one static starting platform followed by
`num_platforms` generated ones (20 in multiplayer, 30 in single player). -/
def create_platforms (is_multiplayer : Bool) : List Plat :=
  let num_platforms := if is_multiplayer then 20 else 30
  let start : Plat :=
    { x := 0, y := 0, z := 0, width := 8, height := 1/2, depth := 8,
      movement_type := .static, base_x := 0, base_y := 0, base_z := 0 }
  start :: (List.range num_platforms).map (fun j => create_platform (j + 1))

/-- The `__init__` state of `Game3DScreen`; `t0` models the `time.time()`
value stored in `self.start_time`. -/
def init_gstate (mp : Bool) (t0 : ℚ) : GState where
  is_multiplayer := mp
  ball_x := 0
  ball_y := 1
  ball_z := 0
  ball_vel_x := 0
  ball_vel_y := 0
  ball_vel_z := 0
  ball2_x := 0
  ball2_y := 1
  ball2_z := 0
  ball2_vel_x := 0
  ball2_vel_y := 0
  ball2_vel_z := 0
  platforms := create_platforms mp
  game_over := false
  game_over_p1 := false
  game_over_p2 := false
  game_ended := false
  winner := 0
  winner_reason := ""
  score := 0
  platforms_reached := ∅
  start_time := t0
  game_time := 0
  best_time := none
  high_score := 0
  score_p2 := 0
  platforms_reached_p2 := ∅
  best_time_p2 := none
  high_score_p2 := 0
  keys_w := false
  keys_a := false
  keys_s := false
  keys_d := false
  keys_space := false
  keys2_up := false
  keys2_down := false
  keys2_left := false
  keys2_right := false
  keys2_enter := false

/-- The `_determine_vs_winner` method: decides the VS match the moment player
`falling_player` falls.  A no-op when `game_ended` is already set. -/
def determine_vs_winner (falling_player : ℕ) (s : GState) : GState :=
  if s.game_ended then s
  else
    let s := { s with game_ended := true, game_over := true,
                      game_over_p1 := true, game_over_p2 := true }
    let p1_score := s.score
    let p2_score := s.score_p2
    let score_diff : ℕ := (p1_score - p2_score).natAbs
    if falling_player = 1 then
      if p1_score > p2_score ∧ score_diff > 100 then
        { s with winner := 1,
                 winner_reason := "P1 WINS! Fell with " ++ toString score_diff ++ " point lead!" }
      else
        { s with winner := 2,
                 winner_reason := "P2 WINS! P1 fell (score diff: " ++ toString score_diff ++ ")" }
    else
      if p2_score > p1_score ∧ score_diff > 100 then
        { s with winner := 2,
                 winner_reason := "P2 WINS! Fell with " ++ toString score_diff ++ " point lead!" }
      else
        { s with winner := 1,
                 winner_reason := "P1 WINS! P2 fell (score diff: " ++ toString score_diff ++ ")" }

/-- The `_is_on_ground` check: is the ball horizontally inside some platform
with its bottom within `0.1` of that platform's top? -/
def is_on_ground (s : GState) : Bool :=
  s.platforms.any (fun p =>
    decide (p.x - p.width/2 ≤ s.ball_x ∧ s.ball_x ≤ p.x + p.width/2 ∧
            p.z - p.depth/2 ≤ s.ball_z ∧ s.ball_z ≤ p.z + p.depth/2) &&
    decide (|s.ball_y - ball_radius - (p.y + p.height/2)| < 1/10))

/-- The `_is_on_ground_p2` check for the second ball. -/
def is_on_ground_p2 (s : GState) : Bool :=
  s.platforms.any (fun p =>
    decide (p.x - p.width/2 ≤ s.ball2_x ∧ s.ball2_x ≤ p.x + p.width/2 ∧
            p.z - p.depth/2 ≤ s.ball2_z ∧ s.ball2_z ≤ p.z + p.depth/2) &&
    decide (|s.ball2_y - ball_radius - (p.y + p.height/2)| < 1/10))

/-- The `_handle_input` method: key acceleration, horizontal speed clamp,
then jump; `msqrt` models `math.sqrt`. -/
def handle_input (msqrt : ℚ → ℚ) (dt : ℚ) (s : GState) : GState :=
  if s.is_multiplayer && s.game_ended then s
  else
    let s := if s.keys_w then { s with ball_vel_z := s.ball_vel_z - acceleration * dt } else s
    let s := if s.keys_s then { s with ball_vel_z := s.ball_vel_z + acceleration * dt } else s
    let s := if s.keys_a then { s with ball_vel_x := s.ball_vel_x - acceleration * dt } else s
    let s := if s.keys_d then { s with ball_vel_x := s.ball_vel_x + acceleration * dt } else s
    let horizontal_speed := msqrt (s.ball_vel_x ^ 2 + s.ball_vel_z ^ 2)
    let s :=
      if horizontal_speed > max_speed then
        let scale := max_speed / horizontal_speed
        { s with ball_vel_x := s.ball_vel_x * scale, ball_vel_z := s.ball_vel_z * scale }
      else s
    if s.keys_space && is_on_ground s then { s with ball_vel_y := jump_force } else s

/-- The `_handle_input_p2` method. -/
def handle_input_p2 (msqrt : ℚ → ℚ) (dt : ℚ) (s : GState) : GState :=
  if !s.is_multiplayer then s
  else if s.game_ended then s
  else
    let s := if s.keys2_up then { s with ball2_vel_z := s.ball2_vel_z - acceleration * dt } else s
    let s := if s.keys2_down then { s with ball2_vel_z := s.ball2_vel_z + acceleration * dt } else s
    let s := if s.keys2_left then { s with ball2_vel_x := s.ball2_vel_x - acceleration * dt } else s
    let s := if s.keys2_right then { s with ball2_vel_x := s.ball2_vel_x + acceleration * dt } else s
    let horizontal_speed := msqrt (s.ball2_vel_x ^ 2 + s.ball2_vel_z ^ 2)
    let s :=
      if horizontal_speed > max_speed then
        let scale := max_speed / horizontal_speed
        { s with ball2_vel_x := s.ball2_vel_x * scale, ball2_vel_z := s.ball2_vel_z * scale }
      else s
    if s.keys2_enter && is_on_ground_p2 s then { s with ball2_vel_y := jump_force } else s

/-- Recursion over the platform list of `_handle_platform_collision`: the
first platform satisfying the full landing condition snaps the ball and stops
the scan (`return`), matching first-match-wins in the source. -/
def handle_platform_collision_aux (s : GState) : List Plat → GState
  | [] => s
  | p :: rest =>
    if p.x - p.width/2 ≤ s.ball_x ∧ s.ball_x ≤ p.x + p.width/2 ∧
       p.z - p.depth/2 ≤ s.ball_z ∧ s.ball_z ≤ p.z + p.depth/2 ∧
       s.ball_y - ball_radius ≤ p.y + p.height/2 ∧
       s.ball_y - ball_radius ≥ p.y + p.height/2 - 1 ∧
       s.ball_vel_y ≤ 0 then
      let s := { s with ball_y := p.y + p.height/2 + ball_radius }
      if s.ball_vel_y < (-2 : ℚ) then { s with ball_vel_y := -s.ball_vel_y * bounce_damping }
      else { s with ball_vel_y := 0 }
    else handle_platform_collision_aux s rest

/-- The `_handle_platform_collision` method. -/
def handle_platform_collision (s : GState) : GState :=
  handle_platform_collision_aux s s.platforms

/-- Recursion over the platform list of `_handle_platform_collision_p2`. -/
def handle_platform_collision_p2_aux (s : GState) : List Plat → GState
  | [] => s
  | p :: rest =>
    if p.x - p.width/2 ≤ s.ball2_x ∧ s.ball2_x ≤ p.x + p.width/2 ∧
       p.z - p.depth/2 ≤ s.ball2_z ∧ s.ball2_z ≤ p.z + p.depth/2 ∧
       s.ball2_y - ball_radius ≤ p.y + p.height/2 ∧
       s.ball2_y - ball_radius ≥ p.y + p.height/2 - 1 ∧
       s.ball2_vel_y ≤ 0 then
      let s := { s with ball2_y := p.y + p.height/2 + ball_radius }
      if s.ball2_vel_y < (-2 : ℚ) then { s with ball2_vel_y := -s.ball2_vel_y * bounce_damping }
      else { s with ball2_vel_y := 0 }
    else handle_platform_collision_p2_aux s rest

/-- The `_handle_platform_collision_p2` method. -/
def handle_platform_collision_p2 (s : GState) : GState :=
  handle_platform_collision_p2_aux s s.platforms

/-- Recursion over the platform list of `_apply_platform_movement`: the first
platform that supports the ball nudges its position by 80 percent of the
platform's velocity. -/
def apply_platform_movement_aux (dt : ℚ) (s : GState) : List Plat → GState
  | [] => s
  | p :: rest =>
    if (p.x - p.width/2 ≤ s.ball_x ∧ s.ball_x ≤ p.x + p.width/2 ∧
        p.z - p.depth/2 ≤ s.ball_z ∧ s.ball_z ≤ p.z + p.depth/2) ∧
       |s.ball_y - ball_radius - (p.y + p.height/2)| < 1/10 then
      { s with ball_x := s.ball_x + p.vel_x * dt * (8/10),
               ball_z := s.ball_z + p.vel_z * dt * (8/10) }
    else apply_platform_movement_aux dt s rest

/-- The `_apply_platform_movement` method. -/
def apply_platform_movement (dt : ℚ) (s : GState) : GState :=
  if !is_on_ground s then s
  else apply_platform_movement_aux dt s s.platforms

/-- Recursion over the platform list of `_apply_platform_movement_p2`. -/
def apply_platform_movement_p2_aux (dt : ℚ) (s : GState) : List Plat → GState
  | [] => s
  | p :: rest =>
    if (p.x - p.width/2 ≤ s.ball2_x ∧ s.ball2_x ≤ p.x + p.width/2 ∧
        p.z - p.depth/2 ≤ s.ball2_z ∧ s.ball2_z ≤ p.z + p.depth/2) ∧
       |s.ball2_y - ball_radius - (p.y + p.height/2)| < 1/10 then
      { s with ball2_x := s.ball2_x + p.vel_x * dt * (8/10),
               ball2_z := s.ball2_z + p.vel_z * dt * (8/10) }
    else apply_platform_movement_p2_aux dt s rest

/-- The `_apply_platform_movement_p2` method. -/
def apply_platform_movement_p2 (dt : ℚ) (s : GState) : GState :=
  if !is_on_ground_p2 s then s
  else apply_platform_movement_p2_aux dt s s.platforms

/-- The `if completion_time < self.best_time` comparison, with `none` playing
the role of `float('inf')`. -/
def beats_best (bt : Option ℚ) (ct : ℚ) : Bool :=
  match bt with
  | none => true
  | some b => decide (ct < b)

/-- The body of the `for i, platform in enumerate(self.platforms)` loop of
`_update_score`: award `(i+1)*100` on first contact with platform `i`, plus
the one-time completion bonus and best-time update when the final platform is
credited. -/
def update_score_step (s : GState) (ip : ℕ × Plat) : GState :=
  let i := ip.1
  let p := ip.2
  if (p.x - p.width/2 ≤ s.ball_x ∧ s.ball_x ≤ p.x + p.width/2 ∧
      p.z - p.depth/2 ≤ s.ball_z ∧ s.ball_z ≤ p.z + p.depth/2) ∧
     is_on_ground s = true then
    if i ∉ s.platforms_reached then
      let s := { s with platforms_reached := insert i s.platforms_reached,
                        score := s.score + ((i : ℤ) + 1) * 100 }
      if s.platforms_reached.card = s.platforms.length then
        let s := { s with score := s.score + 1000 }
        let completion_time := s.game_time
        if beats_best s.best_time completion_time then
          { s with best_time := some completion_time }
        else s
      else s
    else s
  else s

/-- The `_update_score` method. -/
def update_score (s : GState) : GState :=
  s.platforms.enum.foldl update_score_step s

/-- The body of the scoring loop of `_update_score_p2`. -/
def update_score_p2_step (s : GState) (ip : ℕ × Plat) : GState :=
  let i := ip.1
  let p := ip.2
  if (p.x - p.width/2 ≤ s.ball2_x ∧ s.ball2_x ≤ p.x + p.width/2 ∧
      p.z - p.depth/2 ≤ s.ball2_z ∧ s.ball2_z ≤ p.z + p.depth/2) ∧
     is_on_ground_p2 s = true then
    if i ∉ s.platforms_reached_p2 then
      let s := { s with platforms_reached_p2 := insert i s.platforms_reached_p2,
                        score_p2 := s.score_p2 + ((i : ℤ) + 1) * 100 }
      if s.platforms_reached_p2.card = s.platforms.length then
        let s := { s with score_p2 := s.score_p2 + 1000 }
        let completion_time := s.game_time
        if beats_best s.best_time_p2 completion_time then
          { s with best_time_p2 := some completion_time }
        else s
      else s
    else s
  else s

/-- The `_update_score_p2` method. -/
def update_score_p2 (s : GState) : GState :=
  s.platforms.enum.foldl update_score_p2_step s

/-- The `_update_physics` method (player 1); `t` models `time.time()` and
`msqrt` models `math.sqrt`. -/
def update_physics (msqrt : ℚ → ℚ) (t dt : ℚ) (s : GState) : GState :=
  if s.game_over || (s.is_multiplayer && s.game_ended) then s
  else
    let s := { s with game_time := t - s.start_time }
    let s := { s with ball_vel_y := s.ball_vel_y + gravity * dt }
    let s :=
      if is_on_ground s then
        let s := { s with ball_vel_x := s.ball_vel_x * ground_friction,
                          ball_vel_z := s.ball_vel_z * ground_friction }
        let speed := msqrt (s.ball_vel_x ^ 2 + s.ball_vel_z ^ 2)
        if speed > 0 then
          let resistance_force := rolling_resistance * dt
          let resistance_scale := max 0 (1 - resistance_force / speed)
          { s with ball_vel_x := s.ball_vel_x * resistance_scale,
                   ball_vel_z := s.ball_vel_z * resistance_scale }
        else s
      else
        { s with ball_vel_x := s.ball_vel_x * air_friction,
                 ball_vel_z := s.ball_vel_z * air_friction }
    let s := { s with ball_x := s.ball_x + s.ball_vel_x * dt,
                      ball_y := s.ball_y + s.ball_vel_y * dt,
                      ball_z := s.ball_z + s.ball_vel_z * dt }
    let s := handle_platform_collision s
    let s := apply_platform_movement dt s
    let s := update_score s
    if s.ball_y < death_y then
      let s : GState := { s with game_over := true, game_over_p1 := true }
      let s : GState := if s.high_score < s.score then { s with high_score := s.score } else s
      if s.is_multiplayer && !s.game_ended then determine_vs_winner 1 s else s
    else s

/-- The `_update_physics_p2` method (player 2). -/
def update_physics_p2 (msqrt : ℚ → ℚ) (t dt : ℚ) (s : GState) : GState :=
  if !s.is_multiplayer || s.game_over_p2 || s.game_ended then s
  else
    let s := { s with game_time := t - s.start_time }
    let s := { s with ball2_vel_y := s.ball2_vel_y + gravity * dt }
    let s :=
      if is_on_ground_p2 s then
        let s := { s with ball2_vel_x := s.ball2_vel_x * ground_friction,
                          ball2_vel_z := s.ball2_vel_z * ground_friction }
        let speed := msqrt (s.ball2_vel_x ^ 2 + s.ball2_vel_z ^ 2)
        if speed > 0 then
          let resistance_force := rolling_resistance * dt
          let resistance_scale := max 0 (1 - resistance_force / speed)
          { s with ball2_vel_x := s.ball2_vel_x * resistance_scale,
                   ball2_vel_z := s.ball2_vel_z * resistance_scale }
        else s
      else
        { s with ball2_vel_x := s.ball2_vel_x * air_friction,
                 ball2_vel_z := s.ball2_vel_z * air_friction }
    let s := { s with ball2_x := s.ball2_x + s.ball2_vel_x * dt,
                      ball2_y := s.ball2_y + s.ball2_vel_y * dt,
                      ball2_z := s.ball2_z + s.ball2_vel_z * dt }
    let s := handle_platform_collision_p2 s
    let s := apply_platform_movement_p2 dt s
    let s := update_score_p2 s
    if s.ball2_y < death_y then
      let s : GState := { s with game_over_p2 := true }
      let s : GState := if s.high_score_p2 < s.score_p2 then { s with high_score_p2 := s.score_p2 } else s
      if s.is_multiplayer && !s.game_ended then determine_vs_winner 2 s else s
    else s

/-- One platform's update in `_update_platform_movements`; `msin` and `mcos`
model `math.sin` and `math.cos`, and `t` models `time.time()`. -/
def move_platform (msin mcos : ℚ → ℚ) (t dt : ℚ) (p : Plat) : Plat :=
  let prev_x := p.x
  let prev_z := p.z
  match p.movement_type with
  | .horizontal =>
      let offset := msin (t * p.move_speed) * p.move_range
      let p := { p with x := p.base_x + offset }
      { p with vel_x := if dt > 0 then (p.x - prev_x) / dt else 0, vel_z := 0 }
  | .forward_back =>
      let offset := msin (t * p.move_speed) * p.move_range
      let p := { p with z := p.base_z + offset }
      { p with vel_x := 0, vel_z := if dt > 0 then (p.z - prev_z) / dt else 0 }
  | .tilt =>
      { p with tilt_angle := msin (t * p.tilt_speed) * (3/10), vel_x := 0, vel_z := 0 }
  | .rotate_tilt =>
      { p with tilt_x := msin (t * p.tilt_speed) * (25/100),
               tilt_z := mcos (t * p.tilt_speed * (7/10)) * (25/100),
               vel_x := 0, vel_z := 0 }
  | .static => { p with vel_x := 0, vel_z := 0 }

/-- The `_update_platform_movements` method. -/
def update_platform_movements (msin mcos : ℚ → ℚ) (t dt : ℚ) (s : GState) : GState :=
  { s with platforms := s.platforms.map (move_platform msin mcos t dt) }

/-- The `_update_game` method: platform movements, then input and physics for
each active player, in source order. -/
def update_game (msin mcos msqrt : ℚ → ℚ) (t dt : ℚ) (s : GState) : GState :=
  let s := update_platform_movements msin mcos t dt s
  if !s.is_multiplayer then
    update_physics msqrt t dt (handle_input msqrt dt s)
  else
    update_physics_p2 msqrt t dt
      (update_physics msqrt t dt
        (handle_input_p2 msqrt dt (handle_input msqrt dt s)))

theorem p1_reason_contains (d : ℕ) :
    strContains ("P1 WINS! Fell with " ++ toString d ++ " point lead!")
      ("Fell with " ++ toString d ++ " point lead") := by
  refine ⟨("P1 WINS! " : String).data, ("!" : String).data, ?_⟩
  simp only [String.data_append, List.append_assoc, List.cons_append, List.nil_append]

theorem p2_reason_contains (d : ℕ) :
    strContains ("P2 WINS! Fell with " ++ toString d ++ " point lead!")
      ("Fell with " ++ toString d ++ " point lead") := by
  refine ⟨("P2 WINS! " : String).data, ("!" : String).data, ?_⟩
  simp only [String.data_append, List.append_assoc, List.cons_append, List.nil_append]

/-- C1: in two-player VS mode, at the instant player `f` falls (with the match
not yet ended), the falling player is declared winner iff their score exceeds
the other player's by strictly more than 100, in which case the winner reason
contains "Fell with {diff} point lead" for `diff = |score_p1 - score_p2|`;
otherwise the non-falling player is declared winner. -/
theorem vs_winner_decision (s : GState) (f : ℕ)
    (hend : s.game_ended = false) (hf : f = 1 ∨ f = 2) :
    ((determine_vs_winner f s).winner = f ↔
        (if f = 1 then s.score_p2 + 100 < s.score else s.score + 100 < s.score_p2)) ∧
    ((determine_vs_winner f s).winner = f →
        strContains (determine_vs_winner f s).winner_reason
          ("Fell with " ++ toString (s.score - s.score_p2).natAbs ++ " point lead")) ∧
    (¬ (if f = 1 then s.score_p2 + 100 < s.score else s.score + 100 < s.score_p2) →
        (determine_vs_winner f s).winner = if f = 1 then 2 else 1) := by
  rcases hf with rfl | rfl
  · by_cases hc : s.score > s.score_p2 ∧ (s.score - s.score_p2).natAbs > 100
    · have hlt : s.score_p2 + 100 < s.score := by omega
      refine ⟨?_, ?_, ?_⟩
      · simp [determine_vs_winner, hend, hc, hlt]
      · intro _
        simpa [determine_vs_winner, hend, hc] using p1_reason_contains (s.score - s.score_p2).natAbs
      · intro h
        exact absurd hlt (by simpa using h)
    · have hlt : ¬ s.score_p2 + 100 < s.score := by omega
      refine ⟨?_, ?_, ?_⟩
      · simp [determine_vs_winner, hend, hc, hlt]
      · intro hw
        exact absurd hw (by simp [determine_vs_winner, hend, hc])
      · intro _
        simp [determine_vs_winner, hend, hc]
  · by_cases hc : s.score_p2 > s.score ∧ (s.score - s.score_p2).natAbs > 100
    · have hlt : s.score + 100 < s.score_p2 := by omega
      refine ⟨?_, ?_, ?_⟩
      · simp [determine_vs_winner, hend, hc, hlt]
      · intro _
        have := p2_reason_contains (s.score - s.score_p2).natAbs
        simpa [determine_vs_winner, hend, hc] using this
      · intro h
        exact absurd hlt (by simpa using h)
    · have hlt : ¬ s.score + 100 < s.score_p2 := by omega
      refine ⟨?_, ?_, ?_⟩
      · simp [determine_vs_winner, hend, hc, hlt]
      · intro hw
        exact absurd hw (by simp [determine_vs_winner, hend, hc])
      · intro _
        simp [determine_vs_winner, hend, hc]

/-- A VS-mode state with the given scores, used to instantiate the VS
adjudication rule at the spec's example scores. -/
def ex_vs_state (p1 p2 : ℤ) : GState :=
  { init_gstate true 0 with score := p1, score_p2 := p2 }

theorem vs_winner_decision_witness :
    (determine_vs_winner 1 (ex_vs_state 1200 900)).winner = 1 ∧
    strContains (determine_vs_winner 1 (ex_vs_state 1200 900)).winner_reason
      "Fell with 300 point lead" ∧
    (determine_vs_winner 1 (ex_vs_state 1000 1050)).winner = 2 := by
  have h1 := vs_winner_decision (ex_vs_state 1200 900) 1 rfl (Or.inl rfl)
  have h2 := vs_winner_decision (ex_vs_state 1000 1050) 1 rfl (Or.inl rfl)
  have hw : (determine_vs_winner 1 (ex_vs_state 1200 900)).winner = 1 :=
    h1.1.mpr (by norm_num [ex_vs_state])
  refine ⟨hw, ?_, ?_⟩
  · have hc := h1.2.1 hw
    have : ("Fell with " ++ toString ((1200 : ℤ) - 900).natAbs ++ " point lead" : String)
        = "Fell with 300 point lead" := by decide
    simpa [ex_vs_state, this] using hc
  · exact h2.2.2 (by norm_num [ex_vs_state])

/-- C2: once `game_ended` is true in two-player mode, a full game tick leaves
every ball, score, winner and game-over field of both players unchanged (only
the time-driven platform poses advance), `game_ended` remains true over any
further sequence of ticks, and a second call to the VS winner determination is
a no-op. -/
theorem game_ended_terminal (msin mcos msqrt : ℚ → ℚ) (t dt : ℚ) (s : GState)
    (hm : s.is_multiplayer = true) (he : s.game_ended = true) :
    (update_game msin mcos msqrt t dt s).game_ended = true ∧
    (update_game msin mcos msqrt t dt s).ball_x = s.ball_x ∧
    (update_game msin mcos msqrt t dt s).ball_y = s.ball_y ∧
    (update_game msin mcos msqrt t dt s).ball_z = s.ball_z ∧
    (update_game msin mcos msqrt t dt s).ball_vel_x = s.ball_vel_x ∧
    (update_game msin mcos msqrt t dt s).ball_vel_y = s.ball_vel_y ∧
    (update_game msin mcos msqrt t dt s).ball_vel_z = s.ball_vel_z ∧
    (update_game msin mcos msqrt t dt s).ball2_x = s.ball2_x ∧
    (update_game msin mcos msqrt t dt s).ball2_y = s.ball2_y ∧
    (update_game msin mcos msqrt t dt s).ball2_z = s.ball2_z ∧
    (update_game msin mcos msqrt t dt s).ball2_vel_x = s.ball2_vel_x ∧
    (update_game msin mcos msqrt t dt s).ball2_vel_y = s.ball2_vel_y ∧
    (update_game msin mcos msqrt t dt s).ball2_vel_z = s.ball2_vel_z ∧
    (update_game msin mcos msqrt t dt s).score = s.score ∧
    (update_game msin mcos msqrt t dt s).score_p2 = s.score_p2 ∧
    (update_game msin mcos msqrt t dt s).platforms_reached = s.platforms_reached ∧
    (update_game msin mcos msqrt t dt s).platforms_reached_p2 = s.platforms_reached_p2 ∧
    (update_game msin mcos msqrt t dt s).winner = s.winner ∧
    (update_game msin mcos msqrt t dt s).winner_reason = s.winner_reason ∧
    (update_game msin mcos msqrt t dt s).game_over = s.game_over ∧
    (update_game msin mcos msqrt t dt s).game_over_p1 = s.game_over_p1 ∧
    (update_game msin mcos msqrt t dt s).game_over_p2 = s.game_over_p2 ∧
    (∀ f, determine_vs_winner f s = s) ∧
    (∀ ticks : List (ℚ × ℚ),
      (ticks.foldl (fun a td => update_game msin mcos msqrt td.1 td.2 a) s).game_ended = true) := by
  have hfro : ∀ (t' dt' : ℚ) (s' : GState), s'.is_multiplayer = true → s'.game_ended = true →
      update_game msin mcos msqrt t' dt' s' = update_platform_movements msin mcos t' dt' s' := by
    intro t' dt' s' hm' he'
    simp [update_game, update_platform_movements, handle_input, handle_input_p2,
          update_physics, update_physics_p2, hm', he']
  have hfold : ∀ (ticks : List (ℚ × ℚ)) (s' : GState),
      s'.is_multiplayer = true → s'.game_ended = true →
      (ticks.foldl (fun a td => update_game msin mcos msqrt td.1 td.2 a) s').game_ended = true := by
    intro ticks
    induction ticks with
    | nil => intro s' _ he'; simpa using he'
    | cons td rest ih =>
        intro s' hm' he'
        simp only [List.foldl_cons]
        refine ih _ ?_ ?_
        · rw [hfro td.1 td.2 s' hm' he']
          simpa [update_platform_movements] using hm'
        · rw [hfro td.1 td.2 s' hm' he']
          simpa [update_platform_movements] using he'
  rw [hfro t dt s hm he]
  exact ⟨he, rfl, rfl, rfl, rfl, rfl, rfl, rfl, rfl, rfl, rfl, rfl, rfl, rfl, rfl, rfl, rfl,
    rfl, rfl, rfl, rfl, rfl,
    fun f => by simp [determine_vs_winner, he],
    fun ticks => hfold ticks s hm he⟩

theorem game_ended_terminal_witness :
    (update_game (fun _ => 0) (fun _ => 0) (fun _ => 0) 0 (1/10)
        { init_gstate true 0 with game_ended := true }).game_ended = true ∧
    (update_game (fun _ => 0) (fun _ => 0) (fun _ => 0) 0 (1/10)
        { init_gstate true 0 with game_ended := true }).score = 0 := by
  have h := game_ended_terminal (fun _ => 0) (fun _ => 0) (fun _ => 0) 0 (1/10)
    { init_gstate true 0 with game_ended := true } rfl rfl
  exact ⟨h.1, h.2.2.2.2.2.2.2.2.2.2.2.2.2.1⟩

/-- The bookkeeping invariant of `_update_score`: the reached set only holds
indices of actual platforms, and the score is exactly the sum of the
first-contact awards `(i+1)*100` over the reached set, plus the one-time 1000
completion bonus once every platform has been reached. -/
def ScoreInv (s : GState) : Prop :=
  s.platforms_reached ⊆ Finset.range s.platforms.length ∧
  s.score = (∑ i ∈ s.platforms_reached, ((i : ℤ) + 1) * 100) +
    (if s.platforms_reached.card = s.platforms.length then 1000 else 0)

theorem update_score_step_platforms (s : GState) (ip : ℕ × Plat) :
    (update_score_step s ip).platforms = s.platforms := by
  simp only [update_score_step]
  split_ifs <;> rfl

theorem scoreInv_step (s : GState) (ip : ℕ × Plat)
    (hip : ip.1 < s.platforms.length) (h : ScoreInv s) :
    ScoreInv (update_score_step s ip) := by
  obtain ⟨hsub, hscore⟩ := h
  have hins : ip.1 ∉ s.platforms_reached →
      insert ip.1 s.platforms_reached ⊆ Finset.range s.platforms.length :=
    fun _ => Finset.insert_subset (Finset.mem_range.mpr hip) hsub
  have hnotfull : ip.1 ∉ s.platforms_reached →
      ¬ s.platforms_reached.card = s.platforms.length := by
    intro hmem
    have hss : s.platforms_reached ⊂ Finset.range s.platforms.length :=
      (Finset.ssubset_iff_of_subset hsub).mpr ⟨ip.1, Finset.mem_range.mpr hip, hmem⟩
    have := Finset.card_lt_card hss
    simp only [Finset.card_range] at this
    omega
  simp only [update_score_step]
  split_ifs with h1 h2 h3 h4
  · exact ⟨hsub, hscore⟩
  · refine ⟨hins h2, ?_⟩
    simp only [ScoreInv]
    rw [if_pos h3, Finset.sum_insert h2, hscore, if_neg (hnotfull h2)]
    ring
  · refine ⟨hins h2, ?_⟩
    simp only [ScoreInv]
    rw [if_pos h3, Finset.sum_insert h2, hscore, if_neg (hnotfull h2)]
    ring
  · refine ⟨hins h2, ?_⟩
    simp only [ScoreInv]
    rw [if_neg h3, Finset.sum_insert h2, hscore, if_neg (hnotfull h2)]
    ring
  · exact ⟨hsub, hscore⟩

theorem scoreInv_foldl (l : List (ℕ × Plat)) :
    ∀ s : GState, (∀ ip ∈ l, ip.1 < s.platforms.length) → ScoreInv s →
      ScoreInv (l.foldl update_score_step s) := by
  induction l with
  | nil => intro s _ h; simpa using h
  | cons ip rest ih =>
      intro s hb h
      simp only [List.foldl_cons]
      refine ih _ ?_ (scoreInv_step s ip (hb ip (by simp)) h)
      intro jp hjp
      rw [update_score_step_platforms]
      exact hb jp (by simp [hjp])

/-- C3: the platform award is `(i+1)*100` on first contact (the completion
step additionally pays the one-time 1000 bonus), it records `i` in the
player's reached set, a later pass over an already-credited platform is a
strict no-op, the scoring invariant `ScoreInv` holds initially and is
preserved by every `_update_score` pass, and under it a player who has
reached all `N` platforms has score `(sum of (i+1)*100 for i < N) + 1000`. -/
theorem platform_scoring :
    (∀ (s : GState) (i : ℕ) (p : Plat),
      ((p.x - p.width/2 ≤ s.ball_x ∧ s.ball_x ≤ p.x + p.width/2 ∧
        p.z - p.depth/2 ≤ s.ball_z ∧ s.ball_z ≤ p.z + p.depth/2) ∧
        is_on_ground s = true) →
      i ∉ s.platforms_reached →
      i ∈ (update_score_step s (i, p)).platforms_reached ∧
      ((insert i s.platforms_reached).card ≠ s.platforms.length →
        (update_score_step s (i, p)).score = s.score + ((i : ℤ) + 1) * 100) ∧
      ((insert i s.platforms_reached).card = s.platforms.length →
        (update_score_step s (i, p)).score = s.score + ((i : ℤ) + 1) * 100 + 1000)) ∧
    (∀ (s : GState) (i : ℕ) (p : Plat),
      i ∈ s.platforms_reached → update_score_step s (i, p) = s) ∧
    (∀ s : GState, ScoreInv s → ScoreInv (update_score s)) ∧
    (∀ (mp : Bool) (t0 : ℚ), ScoreInv (init_gstate mp t0)) ∧
    (∀ s : GState, ScoreInv s →
      s.platforms_reached = Finset.range s.platforms.length →
      s.score = (∑ i ∈ Finset.range s.platforms.length, ((i : ℤ) + 1) * 100) + 1000) := by
  refine ⟨?_, ?_, ?_, ?_, ?_⟩
  · intro s i p hcond hmem
    simp only [update_score_step]
    split_ifs with h1 h2
    · exact ⟨by simp, fun hne => absurd h1 hne, fun _ => rfl⟩
    · exact ⟨by simp, fun hne => absurd h1 hne, fun _ => rfl⟩
    · exact ⟨by simp, fun _ => rfl, fun heq => absurd heq h1⟩
  · intro s i p hmem
    simp only [update_score_step]
    split_ifs <;> rfl
  · intro s h
    unfold update_score
    refine scoreInv_foldl _ s ?_ h
    intro ip hip
    have := List.mem_enum_iff_getElem?.mp hip
    exact (List.getElem?_eq_some.mp this).1
  · intro mp t0
    refine ⟨by simp [init_gstate], ?_⟩
    have hlen : (create_platforms mp).length ≠ 0 := by
      cases mp <;> simp [create_platforms]
    simp only [init_gstate, Finset.sum_empty, Finset.card_empty]
    rw [if_neg (by omega)]
    norm_num
  · intro s h hall
    have := h.2
    rw [hall] at this
    simpa using this

/-- A two-platform state with the ball resting on the first platform, used to
evaluate the scoring rule concretely. -/
def ex_score_plat : Plat :=
  { x := 0, y := 0, z := 0, width := 8, height := 1/2, depth := 8,
    movement_type := .static, base_x := 0, base_y := 0, base_z := 0 }

def ex_score_plat2 : Plat :=
  { x := 100, y := 0, z := 100, width := 1, height := 1/2, depth := 1,
    movement_type := .static, base_x := 100, base_y := 0, base_z := 100 }

def ex_score_state : GState :=
  { init_gstate false 0 with platforms := [ex_score_plat, ex_score_plat2], ball_y := 3/4 }

theorem platform_scoring_witness :
    0 ∈ (update_score_step ex_score_state (0, ex_score_plat)).platforms_reached ∧
    (update_score_step ex_score_state (0, ex_score_plat)).score = 100 ∧
    update_score_step { ex_score_state with platforms_reached := {0} } (0, ex_score_plat)
      = { ex_score_state with platforms_reached := {0} } := by
  have h := platform_scoring
  have hg : is_on_ground ex_score_state = true := by
    norm_num [is_on_ground, ex_score_state, ex_score_plat, ex_score_plat2,
      init_gstate, ball_radius]
  have h1 := h.1 ex_score_state 0 ex_score_plat
    (by exact ⟨by norm_num [ex_score_state, ex_score_plat, init_gstate], hg⟩)
    (by simp [ex_score_state, init_gstate])
  refine ⟨h1.1, ?_, h.2.1 _ 0 ex_score_plat (by simp)⟩
  have h2 := h1.2.1 (by simp [ex_score_state, init_gstate])
  rw [h2]
  norm_num [ex_score_state, init_gstate]

/-- C10: in the two-player screen's collision resolver, a ball with strictly
positive vertical velocity is never landed: both per-player collision passes
leave the whole state (in particular position and velocity) unchanged,
whatever the platform list. -/
theorem upward_ball_passes_through (s : GState) (ps : List Plat) :
    (0 < s.ball_vel_y → handle_platform_collision_aux s ps = s ∧
      handle_platform_collision s = s) ∧
    (0 < s.ball2_vel_y → handle_platform_collision_p2_aux s ps = s ∧
      handle_platform_collision_p2 s = s) := by
  have h1 : ∀ (l : List Plat), 0 < s.ball_vel_y → handle_platform_collision_aux s l = s := by
    intro l h
    induction l with
    | nil => rfl
    | cons p rest ih =>
        rw [handle_platform_collision_aux, if_neg, ih]
        rintro ⟨-, -, -, -, -, -, hv⟩
        linarith
  have h2 : ∀ (l : List Plat), 0 < s.ball2_vel_y → handle_platform_collision_p2_aux s l = s := by
    intro l h
    induction l with
    | nil => rfl
    | cons p rest ih =>
        rw [handle_platform_collision_p2_aux, if_neg, ih]
        rintro ⟨-, -, -, -, -, -, hv⟩
        linarith
  exact ⟨fun h => ⟨h1 ps h, h1 s.platforms h⟩, fun h => ⟨h2 ps h, h2 s.platforms h⟩⟩

theorem upward_ball_passes_through_witness :
    handle_platform_collision
      { init_gstate true 0 with ball_vel_y := 1, ball2_vel_y := 1 }
      = { init_gstate true 0 with ball_vel_y := 1, ball2_vel_y := 1 } ∧
    handle_platform_collision_p2
      { init_gstate true 0 with ball_vel_y := 1, ball2_vel_y := 1 }
      = { init_gstate true 0 with ball_vel_y := 1, ball2_vel_y := 1 } := by
  have h := upward_ball_passes_through
    { init_gstate true 0 with ball_vel_y := 1, ball2_vel_y := 1 } []
  exact ⟨(h.1 (by norm_num)).2, (h.2 (by norm_num)).2⟩

/-- C8: for every platform update of `_update_platform_movements`, the derived
velocity is the finite difference `(new - old) / dt` when `dt > 0` and is set
to exactly `0` whenever `dt ≤ 0`; the update is total for every rational `dt`
including zero and negative values. -/
theorem platform_velocity_guard (msin mcos : ℚ → ℚ) (t dt : ℚ) (p : Plat) :
    (dt ≤ 0 → (move_platform msin mcos t dt p).vel_x = 0 ∧
      (move_platform msin mcos t dt p).vel_z = 0) ∧
    (0 < dt →
      (move_platform msin mcos t dt p).vel_x
        = ((move_platform msin mcos t dt p).x - p.x) / dt ∧
      (move_platform msin mcos t dt p).vel_z
        = ((move_platform msin mcos t dt p).z - p.z) / dt) := by
  constructor
  · intro hdt
    have hngt : ¬ dt > 0 := by linarith
    cases hm : p.movement_type <;> simp [move_platform, hm, hngt]
  · intro hdt
    cases hm : p.movement_type <;> simp [move_platform, hm, hdt]

theorem platform_velocity_guard_witness :
    (move_platform (fun _ => 1) (fun _ => 1) 0 0
      { x := 0, y := 0, z := 0, width := 5, height := 1/2, depth := 5,
        movement_type := .horizontal, base_x := 0, base_y := 0, base_z := 0,
        move_range := 3, move_speed := 1 }).vel_x = 0 ∧
    (move_platform (fun _ => 1) (fun _ => 1) 0 1
      { x := 0, y := 0, z := 0, width := 5, height := 1/2, depth := 5,
        movement_type := .horizontal, base_x := 0, base_y := 0, base_z := 0,
        move_range := 3, move_speed := 1 }).vel_x
      = ((move_platform (fun _ => 1) (fun _ => 1) 0 1
          { x := 0, y := 0, z := 0, width := 5, height := 1/2, depth := 5,
            movement_type := .horizontal, base_x := 0, base_y := 0, base_z := 0,
            move_range := 3, move_speed := 1 }).x - 0) / 1 := by
  constructor
  · exact ((platform_velocity_guard (fun _ => 1) (fun _ => 1) 0 0 _).1 le_rfl).1
  · exact ((platform_velocity_guard (fun _ => 1) (fun _ => 1) 0 1 _).2 (by norm_num)).1

end Screen

namespace Gen

/-- Platform-effect tag of `src/game/platforms.py` (`platform_type`). -/
inductive PType where
  | normal
  | speed_boost
  | bounce
  | slippery
  | moving
deriving DecidableEq, Repr, Inhabited

/-- The `Platform` class of `src/game/platforms.py` (cosmetic `color`
omitted); field defaults mirror the `__init__` keyword defaults, with
`moving`, `initial_x` derived from the constructor arguments at build time. -/
structure Platform where
  x : ℚ
  y : ℚ
  z : ℚ
  width : ℚ := 2
  height : ℚ := 1/5
  depth : ℚ := 2
  platform_type : PType := .normal
  passed : Bool := false
  moving : Bool := false
  move_speed : ℚ := 2
  move_range : ℚ := 3
  initial_x : ℚ := 0
  move_direction : ℤ := 1
  animation_time : ℚ := 0
deriving DecidableEq, Repr

/-- An obstacle of `src/game/obstacles.py`, as far as the cleanup logic is
concerned: a placed entity with a position. -/
structure Obstacle where
  x : ℚ
  y : ℚ
  z : ℚ
deriving DecidableEq, Repr

/-- The mutable state of `LevelGenerator`. -/
structure LevelGenerator where
  platforms : List Platform
  obstacles : List Obstacle
  current_z : ℚ := 0
  platform_spacing : ℚ := 4
  difficulty_increase_rate : ℚ := 1/10
deriving DecidableEq, Repr

/-- The `cleanup_distant_platforms` method: keeps exactly the platforms and
obstacles with `z > ball_z + 20.0`. -/
def cleanup_distant_platforms (ball_z : ℚ) (g : LevelGenerator) : LevelGenerator :=
  { g with platforms := g.platforms.filter (fun p => decide (p.z > ball_z + 20)),
           obstacles := g.obstacles.filter (fun o => decide (o.z > ball_z + 20)) }

/-- C6 (refutation of the claimed cleanup direction): travel is toward
decreasing `z`, so a platform behind the ball has larger `z`.  The filter
`p.z > ball_z + 20.0` keeps exactly the platforms at least 20 units BEHIND the
ball and removes everything else — the opposite of the claim and of the
method's own docstring.  Concretely, with the ball at `z = -50`: a platform at
`z = -60` (10 units ahead) is removed, while a platform at `z = -20` (30 units
behind) is retained. -/
theorem cleanup_filter_inverted :
    (cleanup_distant_platforms (-50)
        { platforms := [{ x := 0, y := 0, z := -60 }], obstacles := [] }).platforms = [] ∧
    (cleanup_distant_platforms (-50)
        { platforms := [{ x := 0, y := 0, z := -20 }], obstacles := [] }).platforms
      = [{ x := 0, y := 0, z := -20 }] := by
  constructor <;> norm_num [cleanup_distant_platforms, List.filter]

end Gen

namespace Phys

/-- The `Ball` class of `src/game/physics.py` (cosmetic `colors`/`color`
omitted).  Python attributes that are mutated at runtime (`friction` is set to
0.95 by slippery platforms) are fields; the `__init__` values are the field
defaults. -/
structure Ball where
  x : ℚ := 0
  y : ℚ := 2
  z : ℚ := 0
  radius : ℚ := 1/2
  player_id : ℕ := 0
  vx : ℚ := 0
  vy : ℚ := 0
  vz : ℚ := 0
  gravity : ℚ := -12
  friction : ℚ := 88/100
  bounce_damping : ℚ := 6/10
  move_force : ℚ := 18
  max_speed : ℚ := 10
  jump_force : ℚ := 14
  can_jump : Bool := true
  on_ground : Bool := true
  alive : Bool := true
  stunned : Bool := false
  stun_time : ℚ := 0
  speed_boost : ℚ := 1
  speed_boost_time : ℚ := 0
deriving DecidableEq, Repr

/-- Squared horizontal speed, used to state the speed-clamp invariant without
a square root (`sqrt(vx^2+vz^2) <= c` iff `vx^2+vz^2 <= c^2` for `c >= 0`). -/
def speedSq (b : Ball) : ℚ := b.vx ^ 2 + b.vz ^ 2

/-- The `apply_force` method; `msqrt` models `math.sqrt`. -/
def apply_force (msqrt : ℚ → ℚ) (fx fz dt : ℚ) (b : Ball) : Ball :=
  if b.alive && !b.stunned then
    let force_multiplier := b.speed_boost
    let b := { b with vx := b.vx + fx * dt * force_multiplier,
                      vz := b.vz + fz * dt * force_multiplier }
    let ms := b.max_speed * b.speed_boost
    let speed := msqrt (b.vx ^ 2 + b.vz ^ 2)
    if speed > ms then
      { b with vx := (b.vx / speed) * ms, vz := (b.vz / speed) * ms }
    else b
  else b

/-- The `check_platform_collision` method: returns whether the ball landed,
together with the ball (mutated only on a hit). -/
def check_platform_collision (b : Ball) (p : Gen.Platform) : Bool × Ball :=
  let tolerance : ℚ := 1/10
  if p.x - p.width/2 - tolerance ≤ b.x ∧ b.x ≤ p.x + p.width/2 + tolerance ∧
     p.z - p.depth/2 - tolerance ≤ b.z ∧ b.z ≤ p.z + p.depth/2 + tolerance then
    if b.y - b.radius ≤ p.y + p.height/2 ∧ b.y - b.radius ≥ p.y + p.height/2 - 1 then
      let b := { b with y := p.y + p.height/2 + b.radius }
      let b := if b.vy < 0 then { b with vy := 0 } else b
      (true, b)
    else (false, b)
  else (false, b)

/-- The `_handle_platform_effects` method. -/
def handle_platform_effects (b : Ball) (p : Gen.Platform) : Ball :=
  match p.platform_type with
  | .speed_boost => { b with speed_boost := 3/2, speed_boost_time := 2 }
  | .bounce => if b.vy < 0 then { b with vy := |b.vy| * (3/2) + 5 } else b
  | .slippery => { b with friction := 95/100 }
  | _ => b

/-- The collision loop of `Ball.update`: first hit sets `on_ground` and
re-arms `can_jump`, applies the platform effect, and breaks. -/
def collide_loop (b : Ball) : List Gen.Platform → Ball
  | [] => b
  | p :: rest =>
    let res := check_platform_collision b p
    if res.1 then
      handle_platform_effects { res.2 with on_ground := true, can_jump := true } p
    else collide_loop b rest

/-- Step 1 of `Ball.update`: the stun and speed-boost timer decrements. -/
def update_timers (dt : ℚ) (b : Ball) : Ball :=
  let b :=
    if b.stun_time > 0 then
      let b := { b with stun_time := b.stun_time - dt }
      if b.stun_time ≤ 0 then { b with stunned := false } else b
    else b
  if b.speed_boost_time > 0 then
    let b := { b with speed_boost_time := b.speed_boost_time - dt }
    if b.speed_boost_time ≤ 0 then { b with speed_boost := 1 } else b
  else b

/-- Step 2 of `Ball.update`: gravity integration. -/
def update_gravity (dt : ℚ) (b : Ball) : Ball :=
  { b with vy := b.vy + b.gravity * dt }

/-- Step 3 of `Ball.update`: position integration. -/
def update_position (dt : ℚ) (b : Ball) : Ball :=
  { b with x := b.x + b.vx * dt, y := b.y + b.vy * dt, z := b.z + b.vz * dt }

/-- Step 4 of `Ball.update`: `on_ground := False` then the collision loop. -/
def update_collisions (platforms : List Gen.Platform) (b : Ball) : Ball :=
  collide_loop { b with on_ground := false } platforms

/-- Step 5 of `Ball.update`: ground friction. -/
def update_friction (b : Ball) : Ball :=
  if b.on_ground then
    { b with vx := b.vx * b.friction, vz := b.vz * b.friction }
  else b

/-- Step 6 of `Ball.update`: the death check at `y < -15`. -/
def update_death (b : Ball) : Ball :=
  if b.y < -15 then { b with alive := false } else b

/-- The `Ball.update` method, written with the source's statement-by-statement
sequencing. -/
def update (dt : ℚ) (platforms : List Gen.Platform) (b : Ball) : Ball :=
  if !b.alive then b
  else
    let b :=
      if b.stun_time > 0 then
        let b := { b with stun_time := b.stun_time - dt }
        if b.stun_time ≤ 0 then { b with stunned := false } else b
      else b
    let b :=
      if b.speed_boost_time > 0 then
        let b := { b with speed_boost_time := b.speed_boost_time - dt }
        if b.speed_boost_time ≤ 0 then { b with speed_boost := 1 } else b
      else b
    let b := { b with vy := b.vy + b.gravity * dt }
    let b := { b with x := b.x + b.vx * dt, y := b.y + b.vy * dt, z := b.z + b.vz * dt }
    let b := collide_loop { b with on_ground := false } platforms
    let b := if b.on_ground then
        { b with vx := b.vx * b.friction, vz := b.vz * b.friction }
      else b
    if b.y < -15 then { b with alive := false } else b

/-- The `jump` method: returns the updated ball and the success flag. -/
def jump (b : Ball) : Ball × Bool :=
  if b.alive && b.on_ground && b.can_jump then
    ({ b with vy := b.jump_force, on_ground := false, can_jump := false }, true)
  else (b, false)

/-- The `stun` method. -/
def stun (duration : ℚ) (b : Ball) : Ball :=
  { b with stunned := true, stun_time := duration,
           vx := b.vx * (1/2), vz := b.vz * (1/2) }

theorem update_eq_steps (dt : ℚ) (ps : List Gen.Platform) (b : Ball) :
    update dt ps b = if !b.alive then b
      else update_death (update_friction (update_collisions ps
        (update_position dt (update_gravity dt (update_timers dt b))))) := rfl

theorem handle_platform_effects_flags (b : Ball) (p : Gen.Platform) :
    (handle_platform_effects b p).can_jump = b.can_jump ∧
    (handle_platform_effects b p).on_ground = b.on_ground ∧
    (handle_platform_effects b p).vx = b.vx ∧
    (handle_platform_effects b p).vz = b.vz ∧
    ((handle_platform_effects b p).friction = b.friction ∨
      (handle_platform_effects b p).friction = 95/100) := by
  cases hp : p.platform_type <;>
    simp only [handle_platform_effects, hp] <;>
    first
      | (split_ifs <;> simp)
      | simp

theorem check_platform_collision_flags (b : Ball) (p : Gen.Platform) :
    ((check_platform_collision b p).2.can_jump = b.can_jump ∧
     (check_platform_collision b p).2.vx = b.vx ∧
     (check_platform_collision b p).2.vz = b.vz ∧
     (check_platform_collision b p).2.friction = b.friction) := by
  simp only [check_platform_collision]
  split_ifs <;> exact ⟨rfl, rfl, rfl, rfl⟩

theorem collide_loop_can_jump (ps : List Gen.Platform) (c : Ball)
    (hog : c.on_ground = false) :
    (collide_loop c ps).can_jump = (c.can_jump || (collide_loop c ps).on_ground) := by
  induction ps with
  | nil => simp [collide_loop, hog]
  | cons p rest ih =>
      rw [collide_loop]
      split_ifs with h
      · have he := handle_platform_effects_flags
          { (check_platform_collision c p).2 with on_ground := true, can_jump := true } p
        rw [he.1, he.2.1]
        simp
      · exact ih

theorem collide_loop_vel (ps : List Gen.Platform) (c : Ball) :
    (collide_loop c ps).vx = c.vx ∧ (collide_loop c ps).vz = c.vz ∧
    ((collide_loop c ps).friction = c.friction ∨
      (collide_loop c ps).friction = 95/100) := by
  induction ps with
  | nil => exact ⟨rfl, rfl, Or.inl rfl⟩
  | cons p rest ih =>
      rw [collide_loop]
      split_ifs with h
      · have he := handle_platform_effects_flags
          { (check_platform_collision c p).2 with on_ground := true, can_jump := true } p
        have hc := check_platform_collision_flags c p
        refine ⟨by rw [he.2.2.1]; exact hc.2.1, by rw [he.2.2.2.1]; exact hc.2.2.1, ?_⟩
        rcases he.2.2.2.2 with h1 | h1
        · exact Or.inl (by rw [h1]; exact hc.2.2.2)
        · exact Or.inr h1
      · exact ih

theorem update_timers_flags (dt : ℚ) (b : Ball) :
    (update_timers dt b).can_jump = b.can_jump ∧
    (update_timers dt b).on_ground = b.on_ground ∧
    (update_timers dt b).vx = b.vx ∧
    (update_timers dt b).vz = b.vz ∧
    (update_timers dt b).friction = b.friction := by
  simp only [update_timers]
  split_ifs <;> exact ⟨rfl, rfl, rfl, rfl, rfl⟩

/-- C9: `jump()` succeeds iff the ball is alive, on the ground and armed; on
success it sets `vy` to the jump force and clears `on_ground` and `can_jump`,
on failure it leaves the ball untouched; a second call right after a success
fails; and within the Ball API only the collision pass of `update` can turn
`can_jump` back on — `apply_force` and `stun` never touch it, and after
`update` of a live ball, `can_jump` holds iff it already held or the collision
pass confirmed ground contact. -/
theorem jump_contract :
    (∀ b : Ball, (jump b).2 = true ↔
      (b.alive = true ∧ b.on_ground = true ∧ b.can_jump = true)) ∧
    (∀ b : Ball, (jump b).2 = true →
      (jump b).1 = { b with vy := b.jump_force, on_ground := false, can_jump := false }) ∧
    (∀ b : Ball, (jump b).2 = false → (jump b).1 = b) ∧
    (∀ b : Ball, (jump b).2 = true → (jump (jump b).1).2 = false) ∧
    (∀ (msqrt : ℚ → ℚ) (fx fz dt : ℚ) (b : Ball),
      (apply_force msqrt fx fz dt b).can_jump = b.can_jump) ∧
    (∀ (d : ℚ) (b : Ball), (stun d b).can_jump = b.can_jump) ∧
    (∀ (dt : ℚ) (ps : List Gen.Platform) (b : Ball), b.alive = true →
      (update dt ps b).can_jump = (b.can_jump || (update dt ps b).on_ground)) := by
  refine ⟨?_, ?_, ?_, ?_, ?_, ?_, ?_⟩
  · intro b
    simp only [jump]
    split_ifs with h <;> simp_all [Bool.and_eq_true]
  · intro b h
    simp only [jump] at h ⊢
    split_ifs at h ⊢
    rfl
  · intro b h
    simp only [jump] at h ⊢
    split_ifs at h ⊢
    rfl
  · intro b h
    have hx : (jump b).1.can_jump = false := by
      simp only [jump] at h ⊢
      split_ifs at h ⊢
      rfl
    generalize hg : (jump b).1 = c at hx ⊢
    simp [jump, hx]
  · intro msqrt fx fz dt b
    simp only [apply_force]
    split_ifs <;> rfl
  · intro d b
    rfl
  · intro dt ps b halive
    rw [update_eq_steps, halive]
    simp only [Bool.not_true, Bool.false_eq_true, if_false]
    set b3 := update_position dt (update_gravity dt (update_timers dt b)) with hb3
    have hb3c : b3.can_jump = b.can_jump := by
      rw [hb3]
      simpa [update_position, update_gravity] using (update_timers_flags dt b).1
    have hloop := collide_loop_can_jump ps { b3 with on_ground := false } rfl
    have hfr : ∀ c : Ball, (update_friction c).can_jump = c.can_jump ∧
        (update_friction c).on_ground = c.on_ground := by
      intro c
      simp only [update_friction]
      split_ifs <;> exact ⟨rfl, rfl⟩
    have hde : ∀ c : Ball, (update_death c).can_jump = c.can_jump ∧
        (update_death c).on_ground = c.on_ground := by
      intro c
      simp only [update_death]
      split_ifs <;> exact ⟨rfl, rfl⟩
    rw [(hde _).1, (hfr _).1, (hde _).2, (hfr _).2]
    simpa [update_collisions, hb3c] using hloop

theorem jump_contract_witness :
    (jump { : Ball }).2 = true ∧
    (jump (jump { : Ball }).1).2 = false ∧
    (update (1/10) [] { : Ball }).can_jump
      = ({ : Ball }.can_jump || (update (1/10) [] { : Ball }).on_ground) := by
  have h := jump_contract
  have h1 : (jump { : Ball }).2 = true := (h.1 _).mpr ⟨rfl, rfl, rfl⟩
  exact ⟨h1, h.2.2.2.1 _ h1, h.2.2.2.2.2.2 (1/10) [] _ rfl⟩

/-- A ball one tick before its speed boost expires: clamped exactly at
`max_speed * speed_boost = 15`, airborne high above any platform. -/
def boost_cex_ball : Ball :=
  { y := 10, vx := 15, on_ground := false, speed_boost := 3/2, speed_boost_time := 1/100 }

/-- C7 (refutation as stated): the counterexample tick.  Before the tick the
ball satisfies the invariant with equality (`speed = 15 = max_speed * 1.5`);
`update` then expires the boost (multiplier back to 1) while the airborne ball
keeps `vx = 15`, so at end of tick
`vx^2 + vz^2 = 225 > 121 = (max_speed * multiplier + 1)^2` — the invariant
fails by a margin far beyond any small epsilon, exactly on a tick on which the
speed-boost timer expires while the ball is airborne. -/
theorem speed_clamp_invariant_cex :
    speedSq boost_cex_ball = (boost_cex_ball.max_speed * boost_cex_ball.speed_boost) ^ 2 ∧
    (update (1/10) [] boost_cex_ball).speed_boost = 1 ∧
    ((update (1/10) [] boost_cex_ball).max_speed
        * (update (1/10) [] boost_cex_ball).speed_boost + 1) ^ 2
      < speedSq (update (1/10) [] boost_cex_ball) := by
  refine ⟨by norm_num [speedSq, boost_cex_ball], ?_, ?_⟩ <;>
    norm_num [update, collide_loop, speedSq, boost_cex_ball]

theorem update_speedSq_le (dt : ℚ) (ps : List Gen.Platform) (b : Ball)
    (hf0 : 0 ≤ b.friction) (hf1 : b.friction ≤ 1) :
    speedSq (update dt ps b) ≤ speedSq b := by
  rw [update_eq_steps]
  split_ifs with h
  · exact le_rfl
  · have ht := update_timers_flags dt b
    set b3 := update_position dt (update_gravity dt (update_timers dt b)) with hb3
    have h3 : b3.vx = b.vx ∧ b3.vz = b.vz ∧ b3.friction = b.friction := by
      rw [hb3]
      simp only [update_position, update_gravity]
      exact ⟨ht.2.2.1, ht.2.2.2.1, ht.2.2.2.2⟩
    have h4 := collide_loop_vel ps { b3 with on_ground := false }
    set b4 := collide_loop { b3 with on_ground := false } ps with hb4
    have h4vx : b4.vx = b.vx := by rw [hb4, h4.1]; exact h3.1
    have h4vz : b4.vz = b.vz := by rw [hb4, h4.2.1]; exact h3.2.1
    have h4f : 0 ≤ b4.friction ∧ b4.friction ≤ 1 := by
      rcases h4.2.2 with hf | hf
      · rw [hb4, hf]
        simp only []
        rw [h3.2.2]
        exact ⟨hf0, hf1⟩
      · rw [hb4, hf]
        norm_num
    have hde : ∀ c : Ball, speedSq (update_death c) = speedSq c := by
      intro c
      simp only [update_death, speedSq]
      split_ifs <;> rfl
    rw [update_collisions, ← hb4, hde]
    simp only [update_friction]
    split_ifs with hog
    · have hS : 0 ≤ speedSq b4 := by simp only [speedSq]; positivity
      have : speedSq { b4 with vx := b4.vx * b4.friction, vz := b4.vz * b4.friction }
          = b4.friction ^ 2 * speedSq b4 := by
        simp only [speedSq]
        ring
      rw [this]
      have hsq1 : b4.friction ^ 2 ≤ 1 := by nlinarith [h4f.1, h4f.2]
      have hle : b4.friction ^ 2 * speedSq b4 ≤ speedSq b4 := by nlinarith
      have heq : speedSq b4 = speedSq b := by
        simp only [speedSq, h4vx, h4vz]
      linarith [hle, heq.le]
    · have heq : speedSq b4 = speedSq b := by
        simp only [speedSq, h4vx, h4vz]
      exact heq.le

theorem apply_force_speedSq_le (msqrt : ℚ → ℚ) (fx fz dt : ℚ) (b : Ball)
    (hms : 0 ≤ b.max_speed) (hsb : 0 ≤ b.speed_boost)
    (h0 : speedSq b ≤ (b.max_speed * b.speed_boost) ^ 2)
    (hsq0 : 0 ≤ msqrt ((b.vx + fx * dt * b.speed_boost) ^ 2
      + (b.vz + fz * dt * b.speed_boost) ^ 2))
    (hsq1 : msqrt ((b.vx + fx * dt * b.speed_boost) ^ 2
        + (b.vz + fz * dt * b.speed_boost) ^ 2) ^ 2
      = (b.vx + fx * dt * b.speed_boost) ^ 2 + (b.vz + fz * dt * b.speed_boost) ^ 2) :
    speedSq (apply_force msqrt fx fz dt b) ≤ (b.max_speed * b.speed_boost) ^ 2 := by
  simp only [apply_force]
  split_ifs with h1 h2
  · have hms0 : 0 ≤ b.max_speed * b.speed_boost := mul_nonneg hms hsb
    have hsp : 0 < msqrt ((b.vx + fx * dt * b.speed_boost) ^ 2
        + (b.vz + fz * dt * b.speed_boost) ^ 2) := lt_of_le_of_lt hms0 h2
    simp only [speedSq]
    set vx1 := b.vx + fx * dt * b.speed_boost with hvx1
    set vz1 := b.vz + fz * dt * b.speed_boost with hvz1
    set sp := msqrt (vx1 ^ 2 + vz1 ^ 2) with hsp1
    set ms := b.max_speed * b.speed_boost with hms1
    have key : (vx1 / sp * ms) ^ 2 + (vz1 / sp * ms) ^ 2
        = (vx1 ^ 2 + vz1 ^ 2) * (ms / sp) ^ 2 := by ring
    rw [key, ← hsq1]
    have hne : sp ≠ 0 := ne_of_gt hsp
    field_simp
  · simp only [speedSq]
    have hle : msqrt ((b.vx + fx * dt * b.speed_boost) ^ 2
        + (b.vz + fz * dt * b.speed_boost) ^ 2) ≤ b.max_speed * b.speed_boost :=
      le_of_not_lt h2
    calc (b.vx + fx * dt * b.speed_boost) ^ 2 + (b.vz + fz * dt * b.speed_boost) ^ 2
        = msqrt ((b.vx + fx * dt * b.speed_boost) ^ 2
            + (b.vz + fz * dt * b.speed_boost) ^ 2) ^ 2 := hsq1.symm
      _ ≤ (b.max_speed * b.speed_boost) ^ 2 := by nlinarith [hsq0]
  · exact h0

/-- C7 (amended): at the end of any tick (`apply_force` followed by
`Ball.update`), the squared horizontal speed is bounded by
`(max_speed * m0)^2` for `m0` the speed-boost multiplier in effect at the
start of the tick: the clamp in `apply_force` enforces the bound with `m0`
(given an exact square root at the one evaluated point) and `update` never
increases horizontal speed.  With the end-of-tick multiplier the invariant
can fail only on a tick on which the boost expires mid-tick (see the
counterexample). -/
theorem speed_clamp_start_multiplier (msqrt : ℚ → ℚ) (fx fz dt : ℚ)
    (ps : List Gen.Platform) (b : Ball)
    (hf0 : 0 ≤ b.friction) (hf1 : b.friction ≤ 1)
    (hms : 0 ≤ b.max_speed) (hsb : 0 ≤ b.speed_boost)
    (h0 : speedSq b ≤ (b.max_speed * b.speed_boost) ^ 2)
    (hsq0 : 0 ≤ msqrt ((b.vx + fx * dt * b.speed_boost) ^ 2
      + (b.vz + fz * dt * b.speed_boost) ^ 2))
    (hsq1 : msqrt ((b.vx + fx * dt * b.speed_boost) ^ 2
        + (b.vz + fz * dt * b.speed_boost) ^ 2) ^ 2
      = (b.vx + fx * dt * b.speed_boost) ^ 2 + (b.vz + fz * dt * b.speed_boost) ^ 2) :
    speedSq (update dt ps (apply_force msqrt fx fz dt b))
      ≤ (b.max_speed * b.speed_boost) ^ 2 := by
  have hforce := apply_force_speedSq_le msqrt fx fz dt b hms hsb h0 hsq0 hsq1
  have hfr : (apply_force msqrt fx fz dt b).friction = b.friction := by
    simp only [apply_force]
    split_ifs <;> rfl
  have hupd := update_speedSq_le dt ps (apply_force msqrt fx fz dt b)
    (by rw [hfr]; exact hf0) (by rw [hfr]; exact hf1)
  exact le_trans hupd hforce

/-- The 3-4-5 ball used to instantiate the amended speed-clamp theorem. -/
def cw_ball : Ball := { vx := 3, vz := 4 }

theorem speed_clamp_start_multiplier_witness :
    speedSq cw_ball ≤ (cw_ball.max_speed * cw_ball.speed_boost) ^ 2 ∧
    speedSq (update (1/10) [] (apply_force (fun _ => 5) 0 0 (1/10) cw_ball))
      ≤ (cw_ball.max_speed * cw_ball.speed_boost) ^ 2 :=
  ⟨by norm_num [speedSq, cw_ball],
   speed_clamp_start_multiplier (fun _ => 5) 0 0 (1/10) [] cw_ball
    (by norm_num [cw_ball]) (by norm_num [cw_ball]) (by norm_num [cw_ball])
    (by norm_num [cw_ball]) (by norm_num [speedSq, cw_ball])
    (by norm_num) (by norm_num [cw_ball])⟩

end Phys

namespace Screen

/-- The `self.game_time = time.time() - self.start_time` statement of
`_update_physics`. -/
def set_game_time (t : ℚ) (s : GState) : GState :=
  { s with game_time := t - s.start_time }

/-- The gravity statement of `_update_physics`. -/
def apply_gravity (dt : ℚ) (s : GState) : GState :=
  { s with ball_vel_y := s.ball_vel_y + gravity * dt }

/-- The friction/rolling-resistance block of `_update_physics`. -/
def apply_friction (msqrt : ℚ → ℚ) (dt : ℚ) (s : GState) : GState :=
  if is_on_ground s then
    let s := { s with ball_vel_x := s.ball_vel_x * ground_friction,
                      ball_vel_z := s.ball_vel_z * ground_friction }
    let speed := msqrt (s.ball_vel_x ^ 2 + s.ball_vel_z ^ 2)
    if speed > 0 then
      let resistance_force := rolling_resistance * dt
      let resistance_scale := max 0 (1 - resistance_force / speed)
      { s with ball_vel_x := s.ball_vel_x * resistance_scale,
               ball_vel_z := s.ball_vel_z * resistance_scale }
    else s
  else
    { s with ball_vel_x := s.ball_vel_x * air_friction,
             ball_vel_z := s.ball_vel_z * air_friction }

/-- The position-integration statements of `_update_physics`. -/
def integrate_position (dt : ℚ) (s : GState) : GState :=
  { s with ball_x := s.ball_x + s.ball_vel_x * dt,
           ball_y := s.ball_y + s.ball_vel_y * dt,
           ball_z := s.ball_z + s.ball_vel_z * dt }

/-- The death-check block of `_update_physics` (game-over flags, high-score
update, VS adjudication for the fallen player 1). -/
def check_death (s : GState) : GState :=
  if s.ball_y < death_y then
    let s : GState := { s with game_over := true, game_over_p1 := true }
    let s : GState := if s.high_score < s.score then { s with high_score := s.score } else s
    if s.is_multiplayer && !s.game_ended then determine_vs_winner 1 s else s
  else s

/-- The horizontal speed clamp as it appears in `_handle_input`. -/
def clamp_speed (msqrt : ℚ → ℚ) (s : GState) : GState :=
  let horizontal_speed := msqrt (s.ball_vel_x ^ 2 + s.ball_vel_z ^ 2)
  if horizontal_speed > max_speed then
    let scale := max_speed / horizontal_speed
    { s with ball_vel_x := s.ball_vel_x * scale, ball_vel_z := s.ball_vel_z * scale }
  else s

/-- Modelled from the spec: the per-tick order claimed in section 4.3 —
(1) effect timers (none exist in this screen variant), (2) gravity,
(3) position integration, (4) collision pass, (5) platform coupling,
(6) friction, (7) horizontal speed clamp, (8) death check — assembled from
the code's own step functions, to be compared with the actual
`_update_physics`. -/
def update_physics_claim_order (msqrt : ℚ → ℚ) (t dt : ℚ) (s : GState) : GState :=
  if s.game_over || (s.is_multiplayer && s.game_ended) then s
  else
    check_death (clamp_speed msqrt (apply_friction msqrt dt
      (apply_platform_movement dt (handle_platform_collision
        (integrate_position dt (apply_gravity dt (set_game_time t s)))))))

/-- An airborne single-player state (no platforms, `vx = 1`) on which the
actual tick and the spec-ordered tick disagree. -/
def ex_order_state : GState :=
  { init_gstate false 0 with platforms := [], ball_y := 50, ball_vel_x := 1 }

/-- C5 (refutation as stated): on `ex_order_state` the actual
`_update_physics` applies air friction BEFORE position integration, giving
`ball_x = 0.98 * 0.1 = 0.098`, while the claimed order (friction and clamp
after integration and collision) gives `ball_x = 0.1`.  The square-root model
is instantiated with the exact value of the only evaluated argument
(`sqrt(0.98^2) = 0.98`). -/
theorem physics_order_cex :
    update_physics (fun _ => 49/50) 0 (1/10) ex_order_state
      ≠ update_physics_claim_order (fun _ => 49/50) 0 (1/10) ex_order_state := by
  intro h
  have hx := congrArg GState.ball_x h
  norm_num [update_physics, update_physics_claim_order, set_game_time, apply_gravity,
    apply_friction, integrate_position, check_death, clamp_speed, is_on_ground,
    handle_platform_collision, handle_platform_collision_aux, apply_platform_movement,
    update_score, update_score_step, ex_order_state, init_gstate, determine_vs_winner,
    gravity, air_friction, ground_friction, max_speed, death_y] at hx

/-- C5 (amended): the actual per-tick order.  The screen tick is exactly
game-time update, gravity, friction (ground with rolling resistance, or air),
position integration, collision pass, platform coupling, score update, death
check — so friction precedes position integration and the collision pass,
and the speed clamp is not part of the physics tick at all (it runs during
input handling).  The `physics.Ball` tick is exactly timers, gravity,
position, collision, ground friction, death check (no coupling and no clamp
inside `update`). -/
theorem physics_actual_order :
    (∀ (msqrt : ℚ → ℚ) (t dt : ℚ) (s : GState),
      update_physics msqrt t dt s =
        if s.game_over || (s.is_multiplayer && s.game_ended) then s
        else check_death (update_score (apply_platform_movement dt
          (handle_platform_collision (integrate_position dt
            (apply_friction msqrt dt (apply_gravity dt (set_game_time t s)))))))) ∧
    (∀ (dt : ℚ) (ps : List Gen.Platform) (b : Phys.Ball),
      Phys.update dt ps b = if !b.alive then b
        else Phys.update_death (Phys.update_friction (Phys.update_collisions ps
          (Phys.update_position dt (Phys.update_gravity dt (Phys.update_timers dt b)))))) :=
  ⟨fun _ _ _ _ => rfl, fun _ _ _ => rfl⟩

end Screen

namespace Checkpoint

/-- Modelled from the spec: no checkpoint-award code exists under `src/` (the
only score sources in the repository are the per-platform `(i+1)*100` awards,
the 1000 completion bonus, and `check_platform_passed`'s per-platform pass
counter); the Match/Score Controller's fixed-distance checkpoint rule of
sections 4.4 and 8 — forward-distance thresholds every 20 units (the first at
`z = -20`, the next at `z = -40`, with forward travel toward decreasing `z`),
each awarding +5 exactly once per (player, checkpoint-index) regardless of
platform state — is modelled here from the spec's words.  The per-player
checkpoint state. -/
structure CpState where
  score : ℤ
  checkpoints_reached : Finset ℕ
deriving DecidableEq

/-- Modelled from the spec: the award for checkpoint index `k` (placed at
`z = -20 * (k+1)`): +5 on the first tick on which the ball has crossed it,
nothing afterwards. -/
def checkpoint_step (ball_z : ℚ) (k : ℕ) (st : CpState) : CpState :=
  if ball_z ≤ -(20 * ((k : ℚ) + 1)) ∧ k ∉ st.checkpoints_reached then
    { score := st.score + 5, checkpoints_reached := insert k st.checkpoints_reached }
  else st

/-- Modelled from the spec: the per-tick checkpoint pass over the first `num`
checkpoints. -/
def update_checkpoints (ball_z : ℚ) (num : ℕ) (st : CpState) : CpState :=
  (List.range num).foldl (fun a k => checkpoint_step ball_z k a) st

/-- C4: crossing a checkpoint for the first time awards exactly +5 and
records the index; a credited checkpoint awards nothing on any later tick and
an uncrossed one awards nothing — so a ball that crosses `z = -20` once gains
exactly 5 points even if its `z` afterwards oscillates around -20 without
reaching -40 (evaluated concretely on the tick sequence
`z = -20.5, -19.5, -20.5`). -/
theorem checkpoint_award :
    (∀ (z : ℚ) (k : ℕ) (st : CpState), z ≤ -(20 * ((k : ℚ) + 1)) →
      k ∉ st.checkpoints_reached →
      (checkpoint_step z k st).score = st.score + 5 ∧
      k ∈ (checkpoint_step z k st).checkpoints_reached) ∧
    (∀ (z : ℚ) (k : ℕ) (st : CpState), k ∈ st.checkpoints_reached →
      checkpoint_step z k st = st) ∧
    (∀ (z : ℚ) (k : ℕ) (st : CpState), ¬ z ≤ -(20 * ((k : ℚ) + 1)) →
      checkpoint_step z k st = st) ∧
    (([(-41/2 : ℚ), -39/2, -41/2].foldl (fun a z => update_checkpoints z 2 a)
        { score := 0, checkpoints_reached := ∅ }).score = 5) := by
  refine ⟨?_, ?_, ?_, ?_⟩
  · intro z k st hz hk
    have hc : z ≤ -(20 * ((k : ℚ) + 1)) ∧ k ∉ st.checkpoints_reached := ⟨hz, hk⟩
    simp [checkpoint_step, if_pos hc]
  · intro z k st hk
    simp only [checkpoint_step]
    rw [if_neg]
    rintro ⟨-, hk2⟩
    exact hk2 hk
  · intro z k st hz
    simp only [checkpoint_step]
    rw [if_neg]
    rintro ⟨hz2, -⟩
    exact hz hz2
  · norm_num [update_checkpoints, checkpoint_step, List.range_succ]

theorem checkpoint_award_witness :
    (checkpoint_step (-41/2) 0 { score := 0, checkpoints_reached := ∅ }).score = 0 + 5 ∧
    checkpoint_step (-39/2) 0 { score := 5, checkpoints_reached := {0} }
      = { score := 5, checkpoints_reached := {0} } := by
  refine ⟨?_, ?_⟩
  · exact (checkpoint_award.1 (-41/2) 0 _ (by norm_num) (by simp)).1
  · exact checkpoint_award.2.1 (-39/2) 0 _ (by simp)

end Checkpoint

end MarbleRun
